import Mathlib

/-!
# Verification of the butility ZIP archive codec (`File.zip` / `File.unzip`)

Shallow embedding of the ZIP writer `File.zip` (src/butility.js, lines
3314–3517) and the error paths of the reader `File.unzip` (lines 3285–3306),
with theorems settling the specification's claims about them.

Modelling conventions:
* JS strings are Lean `String`s (sequences of Unicode scalar values); the JS
  `string.length` property (UTF-16 code-unit count) is `jsLength`, and
  `new TextEncoder().encode(s)` is `utf8Bytes`.
* Bytes are `Nat`s; a value stored into a `Uint8Array` element is taken
  `% 256`, matching JS ToUint8 truncation.
* Reading an unbound identifier or completing normally is modelled with
  `Except JSError`; a JS error value is a pair of its `.name` and `.message`.
* Side effects performed by `File.zip` (the triggered browser download at
  lines 3511–3516) are recorded in an explicit effect trace.
-/

/-- A JavaScript error value: its constructor name (`err.name`) and message. -/
structure JSError where
  name : String
  message : String
deriving DecidableEq, Repr

/-- An input element of the `files` array passed to `File.zip`:
`{ name: string, content: string }`. -/
structure FileInput where
  name : String
  content : String
deriving DecidableEq, Repr

/-- UTF-8 encoding of a single Unicode scalar value, as `TextEncoder` emits it. -/
def utf8Char (c : Char) : List Nat :=
  let v := c.toNat
  if v < 0x80 then [v]
  else if v < 0x800 then [0xC0 + v / 64, 0x80 + v % 64]
  else if v < 0x10000 then [0xE0 + v / 4096, 0x80 + v / 64 % 64, 0x80 + v % 64]
  else [0xF0 + v / 262144, 0x80 + v / 4096 % 64, 0x80 + v / 64 % 64, 0x80 + v % 64]

/-- `new TextEncoder().encode(s)`: the UTF-8 bytes of a JS string. -/
def utf8Bytes (s : String) : List Nat :=
  (s.data.map utf8Char).flatten

/-- Number of UTF-16 code units a scalar value occupies in a JS string. -/
def utf16Len (c : Char) : Nat :=
  if c.toNat < 0x10000 then 1 else 2

/-- The JS `string.length` property: the UTF-16 code-unit count. -/
def jsLength (s : String) : Nat :=
  (s.data.map utf16Len).sum

example : utf8Bytes "hi" = [104, 105] := by decide
example : jsLength "é" = 1 ∧ utf8Bytes "é" = [195, 169] := by decide

/-- An element of the `zipData` array built at lines 3315–3322:
`{ name, content: utf8 bytes, contentLength }`. -/
structure ZipDataEntry where
  name : String
  content : List Nat
  contentLength : Nat
deriving DecidableEq, Repr

/-- The `zipData` array: per input file, the name, the UTF-8 content bytes and
their count (lines 3315–3322). -/
def zipData (files : List FileInput) : List ZipDataEntry :=
  files.map fun f =>
    { name := f.name
      content := utf8Bytes f.content
      contentLength := (utf8Bytes f.content).length }

/-- An element of the `centralDirectory` array built at lines 3324–3332:
`{ name, offset, contentLength }`.  Note the record has exactly these three
properties; reading any other property of it yields `undefined`. -/
structure CentralDirEntry where
  name : String
  offset : Nat
  contentLength : Nat
deriving DecidableEq, Repr

/-- The `centralDirectory` array (lines 3324–3332): one record per file,
carrying a running offset that accumulates only `contentLength` (header and
name bytes are not counted). -/
def centralDirectory (zs : List ZipDataEntry) : List CentralDirEntry :=
  (zs.foldl
    (fun (acc : List CentralDirEntry × Nat) f =>
      (acc.1 ++ [{ name := f.name, offset := acc.2, contentLength := f.contentLength }],
       acc.2 + f.contentLength))
    ([], 0)).1

/-- The 32-byte local-file-header `Uint8Array` literal of lines 3335–3376:
signature `PK\x03\x04`, then hard-coded zeros for flags, method, times, CRC-32
and both size fields, then the name-length field written as
`file.name.length` (the JS UTF-16 length, truncated to one byte by the
`Uint8Array`) with a zero high byte. -/
def localHeaderBytes (f : ZipDataEntry) : List Nat :=
  [80, 75, 3, 4,
   10, 0,
   0, 0,
   0, 0,
   0, 0, 0, 0,
   0, 0, 0, 0,
   0, 0, 0, 0,
   0, 0, 0, 0,
   0, 0, 0, 0,
   jsLength f.name % 256, 0]

/-- One element of the `zipArray` (lines 3335–3388): the local header, then
the UTF-8 name bytes, then the content bytes. -/
def fileEntryBytes (f : ZipDataEntry) : List Nat :=
  localHeaderBytes f ++ utf8Bytes f.name ++ f.content

/-- The `zipArray` of per-entry byte blocks (lines 3334–3388). -/
def zipArray (files : List FileInput) : List (List Nat) :=
  (zipData files).map fileEntryBytes

/-- The JS property access `file.currentOffset` at lines 3453–3457: the
`centralDirectory` records carry only `name`, `offset` and `contentLength`,
so the access yields `undefined`. -/
def currentOffsetProp (_ : CentralDirEntry) : Option Nat :=
  none

/-- JS `ToInt32` coercion as applied by the bitwise operators: `undefined`
becomes `NaN` and then `0`; a (nonnegative) number is taken mod 2^32. -/
def jsToInt32 (x : Option Nat) : Nat :=
  match x with
  | none => 0
  | some v => v % 2 ^ 32

/-- The 48-byte central-directory-header `Uint8Array` of lines 3390–3458 with
the name bytes appended (lines 3459–3462): signature `PK\x01\x02`, hard-coded
zeros for flags, method, times, CRC-32 and sizes, the name-length field from
`file.name.length`, and the local-header offset written as
`file.currentOffset & 255` / `file.currentOffset >> 8 & 255` — which is the
undefined property `currentOffset`, so both bytes are 0. -/
def centralHeaderBytes (f : CentralDirEntry) : List Nat :=
  [80, 75, 1, 2,
   10, 0,
   10, 0,
   0, 0,
   0, 0,
   0, 0, 0, 0,
   0, 0, 0, 0,
   0, 0, 0, 0,
   0, 0, 0, 0,
   0, 0, 0, 0,
   jsLength f.name % 256, 0,
   0, 0,
   0, 0,
   0, 0,
   0, 0,
   0, 0, 0, 0,
   jsToInt32 (currentOffsetProp f) &&& 255,
   jsToInt32 (currentOffsetProp f) >>> 8 &&& 255]
  ++ utf8Bytes f.name

/-- The `centralDirectoryArray` (lines 3389–3463). -/
def centralDirectoryArray (files : List FileInput) : List (List Nat) :=
  (centralDirectory (zipData files)).map centralHeaderBytes

/-- The end-of-central-directory `Uint8Array` literal of lines 3464–3510.
The array-literal elements are evaluated left to right: signature, disk
numbers, the entry counts from `centralDirectoryArray.length`, and the
central-directory size — all well-defined — and then the element
`offset & 4294967295 & 255`.  The identifier `offset` is bound nowhere in
`File.zip` (its locals are `zipData`, `centralDirectory`, `currentOffset`,
`zipArray`, `centralDirectoryArray`, `endOfCentralDirectory`, `zipFile`,
`zipBlob`, `link`, plus the parameters `files` and `zipFileName`), and no
enclosing scope or browser global binds it either, so evaluation throws
`ReferenceError: offset is not defined` and the record is never built. -/
def endOfCentralDirectory (cda : List (List Nat)) : Except JSError (List Nat) :=
  let n := cda.length
  let cdSize := (cda.map List.length).sum
  let _evaluatedBeforeThrow : List Nat :=
    [80, 75, 5, 6,
     0, 0, 0, 0,
     0, 0, 0, 0,
     n &&& 255, n >>> 8 &&& 255,
     n &&& 255, n >>> 8 &&& 255,
     (cdSize &&& 4294967295) % 256,
     cdSize >>> 8 &&& 4294967295 &&& 255]
  Except.error { name := "ReferenceError", message := "offset is not defined" }

/-- An observable side effect of `File.zip`. -/
inductive Effect where
  | download (fileName : String)
deriving DecidableEq, Repr

namespace File

/-- `File.zip(files, zipFileName)` (lines 3314–3517): builds `zipData`,
`centralDirectory`, `zipArray` and `centralDirectoryArray`, then evaluates the
`endOfCentralDirectory` literal; only if that succeeded would it concatenate
the blocks into `zipFile`, trigger the browser download of lines 3511–3515
(`document.createElement("a")`, `link.click()`) and return the `Blob`.
The result is the returned bytes (or the thrown error) paired with the trace
of side effects performed. -/
def zip (files : List FileInput) (zipFileName : String) :
    Except JSError (List Nat) × List Effect :=
  let zd := zipData files
  let cd := centralDirectory zd
  let za := zd.map fileEntryBytes
  let cda := cd.map centralHeaderBytes
  match endOfCentralDirectory cda with
  | .error e => (.error e, [])
  | .ok eocd =>
      let zipFile := za.flatten ++ cda.flatten ++ eocd
      (.ok zipFile, [Effect.download zipFileName])

end File

example :
    File.zip [⟨"a.txt", "hi"⟩] "out.zip" =
      (Except.error ⟨"ReferenceError", "offset is not defined"⟩, []) :=
  rfl

/-- An extracted entry as `File.unzip` resolves them:
`{ name: string, content: string }`. -/
structure ExtractedFile where
  name : String
  content : String
deriving DecidableEq, Repr

/-- The rejection value built at line 3299 when `zip.loadAsync` fails:
`new Error("Failed to unzip the file: " + err.message)` — its `.name` is the
plain `Error` constructor's. -/
def unzipLoadRejection (libErr : JSError) : JSError :=
  { name := "Error", message := "Failed to unzip the file: " ++ libErr.message }

/-- The rejection value built at line 3302 when the `FileReader` errors:
`new Error("Error reading zip file.")`. -/
def unzipReadRejection : JSError :=
  { name := "Error", message := "Error reading zip file." }

namespace File

/-- `File.unzip(zipBlob)` (lines 3285–3306), with its external collaborators
abstracted as parameters: `readerResult` is the `FileReader` outcome on the
blob, and `loadAsync` the parse outcome of the external JSZip library (JSZip
is not code of this repository).  On reader failure it rejects with
`unzipReadRejection`; on `loadAsync` failure it rejects with
`unzipLoadRejection` of the library error; on success it resolves with the
`extractedFiles` array.  That array is filled by asynchronous per-entry
callbacks after `Promise.all` is invoked on it, so the list the caller
observes depends on event-loop scheduling; it is therefore the parameter
`resolvedEntries` here, used only on the success path. -/
def unzip (readerResult : Except JSError (List Nat))
    (loadAsync : List Nat → Except JSError (List ExtractedFile))
    (resolvedEntries : List ExtractedFile) :
    Except JSError (List ExtractedFile) :=
  match readerResult with
  | .error _ => .error unzipReadRejection
  | .ok buf =>
      match loadAsync buf with
      | .error e => .error (unzipLoadRejection e)
      | .ok _ => .ok resolvedEntries

end File

/-- Whether an `Except` carries a success value. -/
def exceptIsOk {ε α : Type} : Except ε α → Bool
  | .ok _ => true
  | .error _ => false

/-- The 16-bit little-endian name-length field of a local file header:
bytes 30 and 31. -/
def nameLenField (bs : List Nat) : Nat :=
  bs.getD 30 0 + 256 * bs.getD 31 0

theorem nameLenField_localHeaderBytes (f : ZipDataEntry) :
    nameLenField (localHeaderBytes f) = jsLength f.name % 256 := by
  simp [nameLenField, localHeaderBytes]

theorem utf16Len_le_utf8Char_length (c : Char) :
    utf16Len c ≤ (utf8Char c).length := by
  simp only [utf16Len, utf8Char]
  split_ifs <;> (simp_all; try omega)

theorem utf16Len_lt_utf8Char_length (c : Char) (h : 127 < c.toNat) :
    utf16Len c < (utf8Char c).length := by
  simp only [utf16Len, utf8Char]
  split_ifs <;> (simp_all; try omega)

theorem sum_utf16Len_lt_sum_utf8Len (cs : List Char)
    (h : ∃ c ∈ cs, 127 < c.toNat) :
    (cs.map utf16Len).sum < (cs.map fun c => (utf8Char c).length).sum := by
  induction cs with
  | nil => simp at h
  | cons a t ih =>
      simp only [List.map_cons, List.sum_cons]
      rcases h with ⟨c, hc, hlt⟩
      rcases List.mem_cons.mp hc with h1 | h2
      · subst h1
        exact Nat.add_lt_add_of_lt_of_le (utf16Len_lt_utf8Char_length c hlt)
          (List.sum_le_sum fun i _ => utf16Len_le_utf8Char_length i)
      · exact Nat.add_lt_add_of_le_of_lt (utf16Len_le_utf8Char_length a)
          (ih ⟨c, h2, hlt⟩)

theorem jsLength_lt_utf8Bytes_length (s : String)
    (h : ∃ c ∈ s.data, 127 < c.toNat) :
    jsLength s < (utf8Bytes s).length := by
  have := sum_utf16Len_lt_sum_utf8Len s.data h
  simpa [jsLength, utf8Bytes, List.length_flatten, List.map_map,
    Function.comp] using this

/-- The error value every call of `File.zip` throws. -/
def offsetReferenceError : JSError :=
  { name := "ReferenceError", message := "offset is not defined" }

/-- C2: For every input list of files, `File.zip` evaluates the unbound
identifier `offset` while constructing the end-of-central-directory record,
so every call (including on an empty list) raises a `ReferenceError` and
never returns a Blob: the result is the `ReferenceError` with an empty
effect trace, never `Except.ok` bytes. -/
theorem zip_always_raises_referenceError
    (files : List FileInput) (zipFileName : String) :
    File.zip files zipFileName = (Except.error offsetReferenceError, []) :=
  rfl

/-- C1: The round-trip claim fails on the code: already at the concrete
one-entry input `[{name: "a.txt", content: "hi"}]`, `File.zip` throws
`ReferenceError: offset is not defined` while building the
end-of-central-directory record, so encoding yields no bytes that
`File.unzip` could decode back to the entries. -/
theorem zip_roundtrip_fails_no_bytes_produced :
    File.zip [⟨"a.txt", "hi"⟩] "archive.zip" =
        (Except.error offsetReferenceError, []) ∧
      exceptIsOk (File.zip [⟨"a.txt", "hi"⟩] "archive.zip").1 = false :=
  ⟨rfl, rfl⟩

/-- C3: The local-file-header block built for the entry
`{name: "a", content: "hi"}`: bytes 18–21 (CRC-32), 22–25 (compressed size)
and 26–29 (uncompressed size) are all hard-coded zeros although the content
is the two bytes `[104, 105]` — so the size fields do not equal the content
length 2 and the CRC field is not computed from the content; only the layout
(header, then name bytes, then content bytes) matches the claim. -/
theorem zip_localHeader_zero_crc_and_size_fields :
    zipArray [⟨"a", "hi"⟩] =
        [[80, 75, 3, 4, 10, 0, 0, 0, 0, 0, 0, 0, 0, 0, 0, 0, 0, 0,
          0, 0, 0, 0, 0, 0, 0, 0, 0, 0, 0, 0, 1, 0,
          97,
          104, 105]] ∧
      (utf8Bytes "hi").length = 2 :=
  ⟨rfl, rfl⟩

/-- C4: In the central directory built for the two entries
`{name: "a", content: "x"}`, `{name: "b", content: "yz"}`, the relative-offset
field (bytes 46–47 of each record) is `0` for both records, because the code
reads the nonexistent property `file.currentOffset` (undefined, coerced to 0).
The offsets the code had tracked are `[0, 1]` — counting content bytes only —
while the first local block is 34 bytes long, so the second local header would
start at byte 34 of any assembled archive; and no archive is assembled at all
since `File.zip` throws. -/
theorem zip_centralDirectory_offset_fields_zero :
    centralDirectoryArray [⟨"a", "x"⟩, ⟨"b", "yz"⟩] =
        [[80, 75, 1, 2, 10, 0, 10, 0, 0, 0, 0, 0, 0, 0, 0, 0, 0, 0, 0, 0,
          0, 0, 0, 0, 0, 0, 0, 0, 0, 0, 0, 0, 1, 0, 0, 0, 0, 0, 0, 0,
          0, 0, 0, 0, 0, 0, 0, 0, 97],
         [80, 75, 1, 2, 10, 0, 10, 0, 0, 0, 0, 0, 0, 0, 0, 0, 0, 0, 0, 0,
          0, 0, 0, 0, 0, 0, 0, 0, 0, 0, 0, 0, 1, 0, 0, 0, 0, 0, 0, 0,
          0, 0, 0, 0, 0, 0, 0, 0, 98]] ∧
      (centralDirectory (zipData [⟨"a", "x"⟩, ⟨"b", "yz"⟩])).map
          CentralDirEntry.offset = [0, 1] ∧
      (fileEntryBytes ⟨"a", utf8Bytes "x", 1⟩).length = 34 :=
  ⟨rfl, rfl, rfl⟩

/-- C8: `File.zip` applied to the empty entry list does not produce an
end-of-central-directory-only buffer: even with no entries, evaluating the
end-of-central-directory literal reads the unbound identifier `offset`, so
the call throws `ReferenceError` and returns nothing. -/
theorem zip_empty_list_throws :
    File.zip [] "empty.zip" = (Except.error offsetReferenceError, []) :=
  rfl

/-- C5 counterexample: when the underlying library reports a CRC mismatch for
an entry, `File.unzip` rejects with a plain `Error` (name `"Error"`, message
`"Failed to unzip the file: ..."`), not with an `ArchiveIntegrityError`
naming the entry — no `ArchiveIntegrityError` type exists in the code. -/
theorem unzip_crc_mismatch_yields_plain_error :
    File.unzip (Except.ok [80, 75, 3, 4])
        (fun _ => Except.error ⟨"Error", "Corrupted zip: CRC32 mismatch, entry a.txt"⟩)
        [] =
      Except.error ⟨"Error",
        "Failed to unzip the file: Corrupted zip: CRC32 mismatch, entry a.txt"⟩ ∧
    ("Error" : String) ≠ "ArchiveIntegrityError" :=
  ⟨rfl, by decide⟩

/-- C5 (amended): whenever `File.unzip` fails — for any reader outcome, any
behavior of the external unzip library (including a CRC-mismatch report), and
any observed entry list — the rejection value is a plain `Error`; it is never
an `ArchiveIntegrityError`. -/
theorem unzip_failure_is_generic_error
    (readerResult : Except JSError (List Nat))
    (loadAsync : List Nat → Except JSError (List ExtractedFile))
    (resolvedEntries : List ExtractedFile) (e : JSError)
    (h : File.unzip readerResult loadAsync resolvedEntries = Except.error e) :
    e.name = "Error" ∧ e.name ≠ "ArchiveIntegrityError" := by
  cases readerResult with
  | error e0 =>
      simp only [File.unzip] at h
      obtain rfl : unzipReadRejection = e := by
        simpa using h
      refine ⟨rfl, by decide⟩
  | ok buf =>
      cases hla : loadAsync buf with
      | error le =>
          simp only [File.unzip, hla] at h
          obtain rfl : unzipLoadRejection le = e := by
            simpa using h
          refine ⟨rfl, ?_⟩
          simp only [unzipLoadRejection]
          decide
      | ok es =>
          simp only [File.unzip, hla] at h
          exact absurd h (by simp)

theorem unzip_failure_is_generic_error_witness :
    (unzipReadRejection).name = "Error" ∧
      (unzipReadRejection).name ≠ "ArchiveIntegrityError" :=
  unzip_failure_is_generic_error (Except.error ⟨"Error", "read fail"⟩)
    (fun _ => Except.ok []) [] unzipReadRejection rfl

/-- C6: A failed `File.unzip` call delivers no entries to the caller: the
promise resolves with an entry list exactly when the reader succeeded and the
external library parsed the buffer successfully; on every failure path the
result is a rejection error carrying no entry list at all. -/
theorem unzip_failed_returns_no_entries
    (readerResult : Except JSError (List Nat))
    (loadAsync : List Nat → Except JSError (List ExtractedFile))
    (resolvedEntries : List ExtractedFile) :
    (∃ es, File.unzip readerResult loadAsync resolvedEntries = Except.ok es) ↔
      (∃ buf, readerResult = Except.ok buf ∧ exceptIsOk (loadAsync buf) = true) := by
  constructor
  · rintro ⟨es, hes⟩
    cases readerResult with
    | error e0 => simp [File.unzip] at hes
    | ok buf =>
        refine ⟨buf, rfl, ?_⟩
        cases hla : loadAsync buf with
        | error le => simp [File.unzip, hla] at hes
        | ok es0 => simp [exceptIsOk]
  · rintro ⟨buf, rfl, hok⟩
    cases hla : loadAsync buf with
    | error le => simp [exceptIsOk, hla] at hok
    | ok es0 => exact ⟨resolvedEntries, by simp [File.unzip, hla]⟩

/-- C7 counterexample: for an entry with an empty name, `File.zip` does not
fail with an `ArchiveEncodingError`: it performs no input validation and
throws the unbound-identifier `ReferenceError` instead. -/
theorem zip_empty_name_no_encoding_error :
    File.zip [⟨"", "x"⟩] "f.zip" = (Except.error offsetReferenceError, []) ∧
      offsetReferenceError.name ≠ "ArchiveEncodingError" :=
  ⟨rfl, by decide⟩

/-- C7 (amended): `File.zip` validates nothing — names and content sizes are
never checked — and for every input (empty names included) the call throws
the `ReferenceError` from the unbound identifier `offset`, whose name is not
`ArchiveEncodingError`; no `ArchiveEncodingError` type exists in the code. -/
theorem zip_never_raises_archiveEncodingError
    (files : List FileInput) (zipFileName : String) :
    (File.zip files zipFileName).1 = Except.error offsetReferenceError ∧
      offsetReferenceError.name ≠ "ArchiveEncodingError" :=
  ⟨rfl, by decide⟩

/-- C9 counterexample: at the concrete input `[{name: "a", content: "hi"}]`,
`File.zip` does not return the archive bytes (the result is an error), so the
claim that for every input it computes and returns the archive bytes fails. -/
theorem zip_returns_no_bytes_concrete :
    exceptIsOk (File.zip [⟨"a", "hi"⟩] "a.zip").1 = false :=
  rfl

/-- C9 (amended): `File.zip` never returns archive bytes and never performs a
side effect: every call throws before reaching the download code of lines
3511–3516 (`document.createElement`, `link.click()`), so the effect trace is
empty — the download trigger and `Blob` return are present in the source but
unreachable, and no state outside the call is mutated. -/
theorem zip_no_effects_and_no_bytes
    (files : List FileInput) (zipFileName : String) :
    (File.zip files zipFileName).2 = [] ∧
      exceptIsOk (File.zip files zipFileName).1 = false :=
  ⟨rfl, rfl⟩

/-- C10: For every entry whose name contains a non-ASCII character, the
name-length field written into the local file header (the JS string length,
i.e. the UTF-16 code-unit count, truncated to a byte by the `Uint8Array`)
differs from the number of name bytes actually emitted (the UTF-8 encoding of
the name), since the UTF-8 byte count strictly exceeds the UTF-16 code-unit
count as soon as some scalar value is above 127. -/
theorem zip_nameLength_field_mismatch (f : FileInput)
    (h : ∃ c ∈ f.name.data, 127 < c.toNat) :
    ∀ zd ∈ zipData [f],
      nameLenField (localHeaderBytes zd) ≠ (utf8Bytes f.name).length := by
  intro zd hzd
  have hzd' : zd = ⟨f.name, utf8Bytes f.content, (utf8Bytes f.content).length⟩ := by
    simpa [zipData] using hzd
  subst hzd'
  rw [nameLenField_localHeaderBytes]
  show jsLength f.name % 256 ≠ (utf8Bytes f.name).length
  have h1 := jsLength_lt_utf8Bytes_length f.name h
  have h2 : jsLength f.name % 256 ≤ jsLength f.name := Nat.mod_le _ _
  omega

theorem zip_nameLength_field_mismatch_witness :
    (∃ c ∈ ("é" : String).data, 127 < c.toNat) ∧
      ∀ zd ∈ zipData [⟨"é", "x"⟩],
        nameLenField (localHeaderBytes zd) ≠ (utf8Bytes "é").length :=
  ⟨by decide, zip_nameLength_field_mismatch ⟨"é", "x"⟩ (by decide)⟩
